import Mathlib

/-!
# Verification of the astrolearn orbital kinematics and camera-animation core

Shallow embedding of the `PlanetSystem` (planets.js) and `Controls`
(controls.js) classes of the astrolearn repository.  JavaScript numbers are
modelled as real numbers; the mutable mesh/userData fields of a planet are
collected in the `Body` structure, and the in-place `forEach` update loop of
`updatePositions` is modelled as a left-to-right pass (`tickList`) in which
each body is replaced by its updated version, so that `getPlanetById` lookups
performed while processing body `i` see the already-updated bodies at indices
`< i` and the not-yet-updated bodies at indices `≥ i`, exactly as the
JavaScript array mutation does.
-/

namespace Astrolearn

/-- A 3-component vector, modelling `THREE.Vector3`. -/
@[ext]
structure Vec3 where
  x : ℝ
  y : ℝ
  z : ℝ

/-- Euclidean distance between two `Vec3`s. -/
noncomputable def dist3 (p q : Vec3) : ℝ :=
  Real.sqrt ((p.x - q.x) ^ 2 + (p.y - q.y) ^ 2 + (p.z - q.z) ^ 2)

/-- One simulated body: the mesh state (`position`, `rotation.y`) together
with the `userData` fields that `updatePositions` reads and writes
(planets.js, `createPlanet` userData block). -/
structure Body where
  id : String
  orbitalRadius : ℝ
  orbitalPeriod : ℝ
  rotationPeriod : ℝ
  currentAngle : ℝ
  rotationY : ℝ
  position : Vec3
  isStar : Bool
  isSatellite : Bool
  parent : Option String

/-- `getPlanetById`: `this.planets.find(p => p.userData.id === id)`. -/
def getPlanetById (planets : List Body) (pid : String) : Option Body :=
  planets.find? (fun p => p.id == pid)

/-- Axial rotation rate `2π / (rotationPeriod * 3600)` (rad per second). -/
noncomputable def rotationRate (b : Body) : ℝ :=
  2 * Real.pi / (b.rotationPeriod * 3600)

/-- Orbital angular velocity `2π / (orbitalPeriod * 86400)` (rad per second). -/
noncomputable def orbitalAngularVelocity (b : Body) : ℝ :=
  2 * Real.pi / (b.orbitalPeriod * 86400)

/-- The JavaScript guard `userData.isSatellite && userData.parent`: the
satellite branch is taken only when both hold (a `null` parent is falsy). -/
def satParent (b : Body) : Option String :=
  if b.isSatellite then b.parent else none

/-- The body of the `forEach` callback in `updatePositions` (planets.js):
stars only rotate; every other body rotates, then a satellite with a
resolvable parent is placed at `parent.position + r·(cos θ, 0, sin θ)` (a
satellite whose parent is not found is silently left in place), and a
regular planet is placed at `r·(cos θ, 0, sin θ)` around the origin.
`arr` is the current state of the `planets` array, used for the
`getPlanetById` parent lookup. -/
noncomputable def updateBody (arr : List Body) (ts dt : ℝ) (b : Body) : Body :=
  if b.isStar then
    { b with rotationY := b.rotationY + rotationRate b * dt * ts }
  else
    let b1 := { b with rotationY := b.rotationY + rotationRate b * dt * ts }
    match satParent b1 with
    | some pid =>
        match getPlanetById arr pid with
        | some parentPlanet =>
            let θ := b1.currentAngle + orbitalAngularVelocity b1 * dt * ts * 86400
            { b1 with
              currentAngle := θ
              position :=
                ⟨parentPlanet.position.x + b1.orbitalRadius * Real.cos θ,
                 parentPlanet.position.y,
                 parentPlanet.position.z + b1.orbitalRadius * Real.sin θ⟩ }
        | none => b1
    | none =>
        let θ := b1.currentAngle + orbitalAngularVelocity b1 * dt * ts * 86400
        { b1 with
          currentAngle := θ
          position :=
            ⟨b1.orbitalRadius * Real.cos θ,
             b1.position.y,
             b1.orbitalRadius * Real.sin θ⟩ }

/-- The `planets.forEach` loop of `updatePositions`: bodies are processed
left to right; `done` holds the already-updated bodies, and each lookup sees
`done ++` the unprocessed remainder (the array as mutated so far). -/
noncomputable def tickList (ts dt : ℝ) : List Body → List Body → List Body
  | done, [] => done
  | done, b :: rest =>
      tickList ts dt (done ++ [updateBody (done ++ (b :: rest)) ts dt b]) rest

/-- The mutable state of the `PlanetSystem` class relevant to the update
loop: the `planets` array, `timeSpeed` and `isPaused`. -/
structure PlanetSystem where
  planets : List Body
  timeSpeed : ℝ
  isPaused : Bool

/-- `updatePositions(deltaTime)`: returns immediately when paused, otherwise
runs the update pass over the planets array. -/
noncomputable def updatePositions (dt : ℝ) (sys : PlanetSystem) : PlanetSystem :=
  if sys.isPaused then sys
  else { sys with planets := tickList sys.timeSpeed dt [] sys.planets }

/-- `setTimeSpeed(speed)`. -/
def setTimeSpeed (speed : ℝ) (sys : PlanetSystem) : PlanetSystem :=
  { sys with timeSpeed := speed }

/-- `setPaused(paused)`. -/
def setPaused (p : Bool) (sys : PlanetSystem) : PlanetSystem :=
  { sys with isPaused := p }

/-- A sequence of `updatePositions` calls with the given per-frame deltas. -/
noncomputable def applyDeltas (dts : List ℝ) (sys : PlanetSystem) : PlanetSystem :=
  dts.foldl (fun s d => updatePositions d s) sys

/-- The speed-slider mapping of ui.js: `parseFloat(e.target.value) / 10`,
with the slider range `min="0" max="100"`. -/
noncomputable def sliderToSpeed (value : ℝ) : ℝ := value / 10

/-- The descriptor fields of a record of `planets.json` that `createPlanet`
(planets.js) reads. -/
structure PlanetData where
  id : String
  type : String
  orbital_radius_earth : Option ℝ
  orbital_radius_au : ℝ
  orbital_period_days : ℝ
  rotation_period_hours : ℝ
  parent : Option String

/-- The state-building part of `createPlanet` (planets.js): the `userData`
block and the initial mesh position.  The call `Math.random()` is modelled
as the explicit argument `rand` (the value drawn from the global RNG).
`orbital_radius_earth || 5` is a JavaScript truthiness default: both a
missing field and the (falsy) value `0` yield `5`.  A fresh mesh sits at the
origin with rotation `0`; only a non-star non-satellite is moved onto its
orbit at creation time. -/
noncomputable def createPlanet (d : PlanetData) (rand : ℝ) : Body :=
  let isStar := d.type == "star"
  let isSatellite := d.type == "satellite"
  let orbitalRadius :=
    if isSatellite then
      match d.orbital_radius_earth with
      | some r => if r = 0 then 5 else r
      | none => 5
    else d.orbital_radius_au * 50
  let currentAngle := rand * Real.pi * 2
  let position : Vec3 :=
    if !isStar && !isSatellite then
      ⟨orbitalRadius * Real.cos currentAngle, 0, orbitalRadius * Real.sin currentAngle⟩
    else ⟨0, 0, 0⟩
  { id := d.id
    orbitalRadius := orbitalRadius
    orbitalPeriod := d.orbital_period_days
    rotationPeriod := d.rotation_period_hours
    currentAngle := currentAngle
    rotationY := 0
    position := position
    isStar := isStar
    isSatellite := isSatellite
    parent := d.parent }

/-- `loadPlanetsData` (planets.js): the fetched and parsed data on success;
on any failure the error is logged and the empty list is returned.  The
outcome of the `fetch`/`json()` pipeline is the explicit argument. -/
def loadPlanetsData (fetched : Option (List PlanetData)) : List PlanetData :=
  match fetched with
  | some data => data
  | none => []

/-- The ease-in-out cubic of `focusOnPlanet`/`resetCamera` (controls.js):
`t < 0.5 ? 4*t*t*t : 1 - Math.pow(-2*t+2, 3)/2`. -/
noncomputable def easeInOutCubic (t : ℝ) : ℝ :=
  if t < 1 / 2 then 4 * t * t * t else 1 - (-2 * t + 2) ^ 3 / 2

/-- `THREE.Vector3.lerpVectors(a, b, t)`: componentwise `a + (b - a) * t`. -/
noncomputable def lerpV (a b : Vec3) (t : ℝ) : Vec3 :=
  ⟨a.x + (b.x - a.x) * t, a.y + (b.y - a.y) * t, a.z + (b.z - a.z) * t⟩

/-- The values captured by the closure of an `animate` callback in
`focusOnPlanet`/`resetCamera`: start/end camera positions and look-targets,
the `performance.now()` at start, and the requested duration. -/
structure AnimState where
  startPos : Vec3
  endPos : Vec3
  startTarget : Vec3
  endTarget : Vec3
  startTime : ℝ
  durationMs : ℝ

/-- One invocation of the `animate(time)` callback (controls.js):
`t = min(elapsed / durationMs, 1)`, ease, lerp camera position and controls
target, and re-schedule iff `t < 1` (the returned Bool is `true` iff the
animation is still active, i.e. `isFocusing` is not reset). -/
noncomputable def animTick (a : AnimState) (now : ℝ) : Vec3 × Vec3 × Bool :=
  let elapsed := now - a.startTime
  let t := min (elapsed / a.durationMs) 1
  let eased := easeInOutCubic t
  (lerpV a.startPos a.endPos eased,
   lerpV a.startTarget a.endTarget eased,
   if t < 1 then true else false)

/-- The data of a planet mesh that `focusOnPlanet` reads: its position,
its geometry radius (`planet.geometry.parameters.radius`) and
`userData.currentAngle`. -/
structure FocusTarget where
  position : Vec3
  radius : ℝ
  currentAngle : ℝ

/-- The mutable state of the `Controls` class: camera position, controls
target, the `isFocusing` flag, and the pending animation closure (if any). -/
structure ControlsState where
  cameraPos : Vec3
  target : Vec3
  isFocusing : Bool
  anim : Option AnimState

/-- `focusOnPlanet(planet, durationMs)` (controls.js).  When `isFocusing`
is set the call returns immediately; in JavaScript both the rejecting and
the accepting path end in a plain `return`, so the function's value is
`undefined` in either case — modelled by the `Unit` component of the
result.  Otherwise the end camera position is the planet position plus the
offset `(-cos(angle)·d, d/2, -sin(angle)·d)` with
`d = max(5·radius, 10)`, the start states are captured, and the animation
is scheduled with `isFocusing = true`. -/
noncomputable def focusOnPlanet (s : ControlsState) (p : FocusTarget)
    (durationMs now : ℝ) : ControlsState × Unit :=
  if s.isFocusing then (s, ())
  else
    let targetFocus := p.position
    let distance := max (p.radius * 5) 10
    let angle := p.currentAngle
    let cameraOffset : Vec3 :=
      ⟨-Real.cos angle * distance, distance * (1 / 2), -Real.sin angle * distance⟩
    let targetCameraPos : Vec3 :=
      ⟨targetFocus.x + cameraOffset.x, targetFocus.y + cameraOffset.y,
       targetFocus.z + cameraOffset.z⟩
    ({ s with
        isFocusing := true
        anim := some ⟨s.cameraPos, targetCameraPos, s.target, targetFocus, now, durationMs⟩ },
     ())

/-- `resetCamera(durationMs)` (controls.js): same debounce guard; the end
states are the fixed overview position `(0, 50, 100)` and target
`(0, 0, 0)`. -/
noncomputable def resetCamera (s : ControlsState) (durationMs now : ℝ) :
    ControlsState × Unit :=
  if s.isFocusing then (s, ())
  else
    ({ s with
        isFocusing := true
        anim := some ⟨s.cameraPos, ⟨0, 50, 100⟩, s.target, ⟨0, 0, 0⟩, now, durationMs⟩ },
     ())

/-- A concrete paused one-planet system. -/
noncomputable def sysPausedC5 : PlanetSystem :=
  { planets := [{ id := "e"
                  orbitalRadius := 10
                  orbitalPeriod := 365.25
                  rotationPeriod := 24
                  currentAngle := 1
                  rotationY := 2
                  position := ⟨10, 0, 0⟩
                  isStar := false
                  isSatellite := false
                  parent := none }]
    timeSpeed := 3
    isPaused := true }

/-- A descriptor with zero orbital and rotation periods and an unresolvable
parent reference. -/
def badDataC6 : PlanetData :=
  { id := "rogue"
    type := "satellite"
    orbital_radius_earth := some 3
    orbital_radius_au := 0
    orbital_period_days := 0
    rotation_period_hours := 0
    parent := some "ghost" }

/-- A well-formed Earth-like descriptor. -/
def earthDataC9 : PlanetData :=
  { id := "e"
    type := "planet"
    orbital_radius_earth := none
    orbital_radius_au := 1
    orbital_period_days := 365.25
    rotation_period_hours := 24
    parent := none }

/-- An in-flight animation closure. -/
def animBusyC4 : AnimState :=
  ⟨⟨0, 0, 0⟩, ⟨9, 9, 9⟩, ⟨0, 0, 0⟩, ⟨3, 3, 3⟩, 0, 2000⟩

/-- A controls state with an animation already active. -/
def sBusyC4 : ControlsState := ⟨⟨5, 5, 5⟩, ⟨0, 0, 0⟩, true, some animBusyC4⟩

/-- The same controls state while idle. -/
def sFreeC4 : ControlsState := ⟨⟨5, 5, 5⟩, ⟨0, 0, 0⟩, false, none⟩

/-- A planet to focus on. -/
def pC4 : FocusTarget := ⟨⟨10, 0, 0⟩, 1, 0⟩

/-- A concrete focus animation begun with the degenerate duration `-1`. -/
def animNegC3 : AnimState :=
  ⟨⟨0, 0, 0⟩, ⟨1, 1, 1⟩, ⟨0, 0, 0⟩, ⟨2, 2, 2⟩, 0, -1⟩

/-- A lone satellite whose parent id resolves to nothing. -/
noncomputable def moonC7 : Body :=
  { id := "m"
    orbitalRadius := 5
    orbitalPeriod := 27.3
    rotationPeriod := 655.7
    currentAngle := 1
    rotationY := 0
    position := ⟨7, 8, 9⟩
    isStar := false
    isSatellite := true
    parent := some "e" }

/-- The one-body system holding just that orphaned satellite. -/
noncomputable def sysOrphanC7 : PlanetSystem :=
  { planets := [moonC7], timeSpeed := 1, isPaused := false }

/-- A concrete Earth-like planet body with seed angle 0. -/
noncomputable def earthC2 : Body :=
  { id := "e"
    orbitalRadius := 150
    orbitalPeriod := 365.25
    rotationPeriod := 24
    currentAngle := 0
    rotationY := 0
    position := ⟨150, 0, 0⟩
    isStar := false
    isSatellite := false
    parent := none }

/-- A planet sitting on its orbit, consistent with its angle. -/
noncomputable def earthC10 : Body :=
  { id := "e"
    orbitalRadius := 10
    orbitalPeriod := 365.25
    rotationPeriod := 24
    currentAngle := 0
    rotationY := 0
    position := ⟨10, 0, 0⟩
    isStar := false
    isSatellite := false
    parent := none }

/-- A satellite of `earthC10` fresh from `createPlanet`: satellites are
positioned relative to their parent only "later", so the fresh mesh still
sits at the origin. -/
noncomputable def moonC10 : Body :=
  { id := "m"
    orbitalRadius := 5
    orbitalPeriod := 27.3
    rotationPeriod := 655.7
    currentAngle := 0
    rotationY := 0
    position := ⟨0, 0, 0⟩
    isStar := false
    isSatellite := true
    parent := some "e" }

/-- The freshly-created system, unpaused, with the slider at its minimum. -/
noncomputable def sysFreshC10 : PlanetSystem :=
  { planets := [earthC10, moonC10], timeSpeed := 0, isPaused := false }

/-- The state of the `planets` array after the update loop has processed
the block `l₁` while the block `suffix` is still pending: `done` holds the
bodies already updated before `l₁`; lookups during the block see
`done ++ remaining-of-l₁ ++ suffix`. -/
noncomputable def runUpTo (ts dt : ℝ) :
    List Body → List Body → List Body → List Body
  | done, [], _suffix => done
  | done, b :: rest, suffix =>
      runUpTo ts dt
        (done ++ [updateBody (done ++ (b :: (rest ++ suffix))) ts dt b]) rest suffix

/-- A concrete parent planet listed before its satellite. -/
noncomputable def eW : Body :=
  { id := "e"
    orbitalRadius := 10
    orbitalPeriod := 365.25
    rotationPeriod := 24
    currentAngle := 0
    rotationY := 0
    position := ⟨10, 0, 0⟩
    isStar := false
    isSatellite := false
    parent := none }

/-- A concrete satellite of `eW`, listed after it. -/
noncomputable def mW : Body :=
  { id := "m"
    orbitalRadius := 5
    orbitalPeriod := 27.3
    rotationPeriod := 655.7
    currentAngle := 0
    rotationY := 0
    position := ⟨0, 0, 0⟩
    isStar := false
    isSatellite := true
    parent := some "e" }

/-- The updated parent entry that the satellite's lookup sees. -/
noncomputable def eW1 : Body := updateBody [eW, mW] 1 1 eW

/-- A satellite listed *before* its parent: same data as `mW` but with a
half-turn orbital period of 2 days. -/
noncomputable def moonA : Body :=
  { id := "m"
    orbitalRadius := 5
    orbitalPeriod := 2
    rotationPeriod := 24
    currentAngle := 0
    rotationY := 0
    position := ⟨0, 0, 0⟩
    isStar := false
    isSatellite := true
    parent := some "e" }

/-- Its parent planet, listed after it, also with a 2-day period. -/
noncomputable def earthA : Body :=
  { id := "e"
    orbitalRadius := 10
    orbitalPeriod := 2
    rotationPeriod := 24
    currentAngle := 0
    rotationY := 0
    position := ⟨10, 0, 0⟩
    isStar := false
    isSatellite := false
    parent := none }

/-- A system whose array lists the satellite before its parent. -/
noncomputable def sysSwapA : PlanetSystem :=
  { planets := [moonA, earthA], timeSpeed := 1, isPaused := false }

/-! ## General lemmas about the update pass -/

/-- A paused system is returned unchanged by a single `updatePositions`. -/
lemma updatePositions_paused (dt : ℝ) (sys : PlanetSystem)
    (h : sys.isPaused = true) : updatePositions dt sys = sys := by
  simp [updatePositions, h]

/-! ## C5 — pause invariance -/

/-- Claim C5 (confirmed): when `isPaused` is `true`, any number of
`updatePositions` calls, with arbitrary `deltaSeconds` for each call and
whatever `timeSpeed` the system holds, leave the whole system state — every
body's `currentAngle`, rotation angle and position — unchanged: the guard
`if (this.isPaused) return;` fires before any mutation. -/
theorem pause_idempotent_noop (sys : PlanetSystem) (h : sys.isPaused = true)
    (dts : List ℝ) : applyDeltas dts sys = sys := by
  induction dts with
  | nil => rfl
  | cons d ds ih =>
      show applyDeltas ds (updatePositions d sys) = sys
      rw [updatePositions_paused d sys h, ih]

/-- Witness for C5: two ticks with deltas 1 and 5 on a concrete paused
system leave it unchanged. -/
theorem pause_idempotent_noop_witness :
    sysPausedC5.isPaused = true ∧ applyDeltas [1, 5] sysPausedC5 = sysPausedC5 :=
  ⟨rfl, pause_idempotent_noop sysPausedC5 rfl [1, 5]⟩

/-! ## C8 — easing function -/

/-- Claim C8 (confirmed): the easing used by every camera-animation tick is
exactly the piecewise ease-in-out cubic — `4t³` below `t = 0.5` and
`1 − ((−2t + 2)³)/2` from `t = 0.5` on — the animation tick applies it to
the clamped progress, and the two branch formulas agree at the join point,
both evaluating to exactly `0.5` at `t = 0.5`. -/
theorem easing_cubic_midpoint :
    (∀ t : ℝ, easeInOutCubic t =
      if t < 1 / 2 then 4 * t * t * t else 1 - (-2 * t + 2) ^ 3 / 2) ∧
    (∀ (a : AnimState) (now : ℝ),
      (animTick a now).1 =
        lerpV a.startPos a.endPos
          (easeInOutCubic (min ((now - a.startTime) / a.durationMs) 1))) ∧
    easeInOutCubic (1 / 2) = 1 / 2 ∧
    4 * (1 / 2 : ℝ) * (1 / 2) * (1 / 2) = 1 / 2 ∧
    1 - (-2 * (1 / 2 : ℝ) + 2) ^ 3 / 2 = 1 / 2 := by
  refine ⟨fun t => rfl, fun a now => rfl, ?_, by norm_num, by norm_num⟩
  norm_num [easeInOutCubic]

/-! ## C6 — no load-time validation -/

/-- Counterexample for C6: `createPlanet` accepts a descriptor with
`orbital_period_days = 0`, `rotation_period_hours = 0` and an unknown
`parent` without any failure — the function has no error path at all and
stores the offending values verbatim in the created body, so no
configuration error is detected or reported at load time. -/
theorem zero_period_accepted_at_load :
    (createPlanet badDataC6 0).orbitalPeriod = 0 ∧
    (createPlanet badDataC6 0).rotationPeriod = 0 ∧
    (createPlanet badDataC6 0).parent = some "ghost" := by
  refine ⟨rfl, rfl, rfl⟩

/-- Claim C6 (corrected): the load path performs no validation: for every
descriptor — zero or negative periods, unknown or cyclic `parent` included —
`createPlanet` succeeds and copies the id, periods and parent reference
unchanged into the body, and a failed fetch in `loadPlanetsData` is swallowed
(logged) and yields the empty list instead of a fail-fast error. -/
theorem createPlanet_stores_descriptor_unvalidated :
    (∀ (d : PlanetData) (rand : ℝ),
      (createPlanet d rand).id = d.id ∧
      (createPlanet d rand).orbitalPeriod = d.orbital_period_days ∧
      (createPlanet d rand).rotationPeriod = d.rotation_period_hours ∧
      (createPlanet d rand).parent = d.parent) ∧
    loadPlanetsData none = [] :=
  ⟨fun _ _ => ⟨rfl, rfl, rfl, rfl⟩, rfl⟩

/-! ## C9 — initial angle is an implicit RNG draw -/

/-- Counterexample for C9: two runs of `createPlanet` on the *same*
descriptor but with different values drawn from the implicit
`Math.random()` call produce different initial `currentAngle`s, so the
initial angle is not determined by any caller-supplied input. -/
theorem random_angle_differs_across_runs :
    (createPlanet earthDataC9 0).currentAngle ≠
      (createPlanet earthDataC9 (1 / 2)).currentAngle := by
  show (0 : ℝ) * Real.pi * 2 ≠ 1 / 2 * Real.pi * 2
  intro h
  have hpi : (0 : ℝ) = Real.pi := by linear_combination h
  exact Real.pi_ne_zero hpi.symm

/-- Claim C9 (corrected): the initial `currentAngle` is
`Math.random() * Math.PI * 2` — an implicit draw from the global unseeded
RNG, modelled by the explicit `rand` argument; there is no caller-supplied
seed parameter in `createPlanet`, and the angle is exactly the RNG draw
scaled by `2π` regardless of the descriptor. -/
theorem initial_angle_is_rng_draw (d : PlanetData) (rand : ℝ) :
    (createPlanet d rand).currentAngle = rand * Real.pi * 2 := rfl

/-! ## C4 — debounce of focus/reset requests -/

/-- Counterexample for C4: in the source both the rejecting path
(`if (this.isFocusing) return;`) and the accepting path end in a bare
`return`, so `focusOnPlanet` evaluates to `undefined` either way — the
`Unit` component of the model.  At a concrete busy state the call is indeed
a state no-op, at the idle state it does start an animation (the state
changes), yet the two calls return identical values: no flag in the return
value indicates rejection, refuting the claim's "returns a flag indicating
rejection". -/
theorem focus_return_value_no_flag :
    (focusOnPlanet sBusyC4 pC4 2000 0).1 = sBusyC4 ∧
    (focusOnPlanet sFreeC4 pC4 2000 0).1 ≠ sFreeC4 ∧
    (focusOnPlanet sBusyC4 pC4 2000 0).2 = (focusOnPlanet sFreeC4 pC4 2000 0).2 := by
  refine ⟨rfl, ?_, rfl⟩
  intro h
  have hflag := congrArg ControlsState.isFocusing h
  have : (focusOnPlanet sFreeC4 pC4 2000 0).1.isFocusing = true := rfl
  rw [this] at hflag
  simp [sFreeC4] at hflag

/-- Claim C4 (amended, proved): while an animation is active
(`isFocusing = true`), `focusOnPlanet` and `resetCamera` are silent
no-ops: the state — including the first animation's captured end states in
`anim` — is returned entirely unchanged, nothing is restarted or stacked,
and no failure is raised (the functions are total); the rejected call
simply returns `undefined` like an accepted one, with no rejection flag. -/
theorem focus_busy_noop (s : ControlsState) (p : FocusTarget) (d now : ℝ)
    (h : s.isFocusing = true) :
    focusOnPlanet s p d now = (s, ()) ∧ resetCamera s d now = (s, ()) := by
  constructor <;> simp [focusOnPlanet, resetCamera, h]

/-- Witness for C4: the busy concrete state rejects both calls unchanged. -/
theorem focus_busy_noop_witness :
    sBusyC4.isFocusing = true ∧
    (focusOnPlanet sBusyC4 pC4 2000 0 = (sBusyC4, ()) ∧
     resetCamera sBusyC4 2000 0 = (sBusyC4, ())) :=
  ⟨rfl, focus_busy_noop sBusyC4 pC4 2000 0 rfl⟩

/-! ## C3 — animation completion at the duration bound -/

/-- `easeInOutCubic 1 = 1`. -/
lemma easeInOutCubic_one : easeInOutCubic 1 = 1 := by
  norm_num [easeInOutCubic]

/-- `lerpVectors` at interpolation parameter 1 yields the end vector. -/
lemma lerpV_one (v w : Vec3) : lerpV v w 1 = w := by
  ext <;> simp [lerpV]

/-- Claim C3 (amended, proved): for a *positive* duration `D`, every
`animate` invocation at a time `now ≥ startTime + D` clamps `t` to 1, so it
sets the camera position and look-target exactly to the captured end states
and does not re-schedule — the returned activity flag is `false` and
`isFocusing` is cleared. -/
theorem animation_completes_at_duration (a : AnimState) (now : ℝ)
    (hD : 0 < a.durationMs) (hnow : a.startTime + a.durationMs ≤ now) :
    animTick a now = (a.endPos, a.endTarget, false) := by
  have helapsed : a.durationMs ≤ now - a.startTime := by linarith
  have hone : (1 : ℝ) ≤ (now - a.startTime) / a.durationMs :=
    (one_le_div hD).mpr helapsed
  have hmin : min ((now - a.startTime) / a.durationMs) 1 = 1 := min_eq_right hone
  show (lerpV a.startPos a.endPos
          (easeInOutCubic (min ((now - a.startTime) / a.durationMs) 1)),
        lerpV a.startTarget a.endTarget
          (easeInOutCubic (min ((now - a.startTime) / a.durationMs) 1)),
        if min ((now - a.startTime) / a.durationMs) 1 < 1 then true else false) =
      (a.endPos, a.endTarget, false)
  rw [hmin, easeInOutCubic_one, lerpV_one, lerpV_one, if_neg (lt_irrefl (1 : ℝ))]

/-- Counterexample for C3: with `durationMs = -1` the first tick at
`now = 1` (which satisfies `now ≥ startTime + durationMs`) computes
`t = min(1 / (-1), 1) = -1 < 1`, so the animation is *still reported
active* (it re-schedules forever) instead of being treated as instantaneous
completion with `t = 1` — the claim's handling of degenerate `D ≤ 0`
fails. -/
theorem negative_duration_never_completes :
    animNegC3.startTime + animNegC3.durationMs ≤ 1 ∧
    (animTick animNegC3 1).2.2 = true := by
  constructor
  · show (0 : ℝ) + -1 ≤ 1
    norm_num
  · show (if min ((1 - (0 : ℝ)) / -1) 1 < 1 then true else false) = true
    rw [if_pos]
    calc min ((1 - (0 : ℝ)) / -1) 1 = min (-1 : ℝ) 1 := by norm_num
      _ = -1 := min_eq_left (by norm_num)
      _ < 1 := by norm_num

/-- Witness for C3: a 2000 ms animation queried at `now = startTime + 2000`
lands exactly on the end states and reports inactive. -/
theorem animation_completes_at_duration_witness :
    0 < animBusyC4.durationMs ∧
    animTick animBusyC4 2000 = (animBusyC4.endPos, animBusyC4.endTarget, false) :=
  ⟨by norm_num [animBusyC4], animation_completes_at_duration animBusyC4 2000
    (by norm_num [animBusyC4]) (by norm_num [animBusyC4])⟩

/-! ## C7 — unresolved satellite parent at tick time -/

/-- Claim C7 (amended, proved): when a satellite's `parentId` cannot be
resolved at tick time (`getPlanetById` returns `undefined`), the body of
the update loop does *not* surface any error: the satellite's axial
rotation is still advanced, but its `currentAngle` and `position` are
silently left untouched (the stale values are retained) and the tick
continues normally. -/
theorem missing_parent_skips_update (arr : List Body) (ts dt : ℝ)
    (s : Body) (pid : String)
    (hstar : s.isStar = false) (hsat : s.isSatellite = true)
    (hpar : s.parent = some pid)
    (hmiss : getPlanetById arr pid = none) :
    updateBody arr ts dt s =
      { s with rotationY := s.rotationY + rotationRate s * dt * ts } := by
  simp [updateBody, satParent, hstar, hsat, hpar, hmiss]

/-- Counterexample for C7: ticking the orphaned satellite raises no error —
`updatePositions` is total and completes — and the satellite's position and
orbital angle survive unchanged (computed from nothing, simply skipped),
contradicting the claim that a fatal error is surfaced rather than the
update being silently skipped. -/
theorem missing_parent_silent_skip :
    ∃ m', (updatePositions 1 sysOrphanC7).planets = [m'] ∧
      m'.position = moonC7.position ∧
      m'.currentAngle = moonC7.currentAngle := by
  refine ⟨{ moonC7 with
            rotationY := moonC7.rotationY + rotationRate moonC7 * 1 * 1 }, ?_, rfl, rfl⟩
  show tickList 1 1 [] [moonC7] = _
  rw [tickList, tickList]
  simp only [List.nil_append]
  rw [updateBody]
  have hm : getPlanetById [moonC7] "e" = none := by
    simp [getPlanetById, List.find?, moonC7]
  have h1 : moonC7.isStar = false := rfl
  have h2 : moonC7.isSatellite = true := rfl
  have h3 : moonC7.parent = some "e" := rfl
  simp [satParent, h1, h2, h3, hm]

/-- Witness for C7's amended theorem at a concrete orphaned satellite. -/
theorem missing_parent_skips_update_witness :
    moonC7.isStar = false ∧ moonC7.isSatellite = true ∧
    moonC7.parent = some "e" ∧ getPlanetById [moonC7] "e" = none ∧
    updateBody [moonC7] 2 3 moonC7 =
      { moonC7 with rotationY := moonC7.rotationY + rotationRate moonC7 * 3 * 2 } :=
  ⟨rfl, rfl, rfl, by simp [getPlanetById, List.find?, moonC7],
   missing_parent_skips_update [moonC7] 2 3 moonC7 "e" rfl rfl rfl
     (by simp [getPlanetById, List.find?, moonC7])⟩

/-! ## C2 — orbital rate law -/

/-- On a non-star non-satellite (planet branch), one `updateBody` step adds
`ω·dt·ts·86400` to the orbital angle and recomputes the x/z position from
the new angle. -/
lemma updateBody_planet (arr : List Body) (ts dt : ℝ) (b : Body)
    (hstar : b.isStar = false) (hsat : b.isSatellite = false) :
    updateBody arr ts dt b =
      { b with
        rotationY := b.rotationY + rotationRate b * dt * ts
        currentAngle := b.currentAngle + orbitalAngularVelocity b * dt * ts * 86400
        position :=
          ⟨b.orbitalRadius *
             Real.cos (b.currentAngle + orbitalAngularVelocity b * dt * ts * 86400),
           b.position.y,
           b.orbitalRadius *
             Real.sin (b.currentAngle + orbitalAngularVelocity b * dt * ts * 86400)⟩ } := by
  simp [updateBody, satParent, hstar, hsat, orbitalAngularVelocity]

/-- On a satellite whose parent id resolves to `pp` in the current array,
one `updateBody` step advances the angle identically and re-derives the
position from the looked-up parent's position. -/
lemma updateBody_satellite (arr : List Body) (ts dt : ℝ) (s pp : Body)
    (pid : String)
    (hstar : s.isStar = false) (hsat : s.isSatellite = true)
    (hpar : s.parent = some pid)
    (hfind : getPlanetById arr pid = some pp) :
    updateBody arr ts dt s =
      { s with
        rotationY := s.rotationY + rotationRate s * dt * ts
        currentAngle := s.currentAngle + orbitalAngularVelocity s * dt * ts * 86400
        position :=
          ⟨pp.position.x + s.orbitalRadius *
             Real.cos (s.currentAngle + orbitalAngularVelocity s * dt * ts * 86400),
           pp.position.y,
           pp.position.z + s.orbitalRadius *
             Real.sin (s.currentAngle + orbitalAngularVelocity s * dt * ts * 86400)⟩ } := by
  simp [updateBody, satParent, hstar, hsat, hpar, hfind, orbitalAngularVelocity]

/-- On a star, one `updateBody` step only advances the axial rotation. -/
lemma updateBody_star (arr : List Body) (ts dt : ℝ) (b : Body)
    (hstar : b.isStar = true) :
    updateBody arr ts dt b =
      { b with rotationY := b.rotationY + rotationRate b * dt * ts } := by
  simp [updateBody, hstar]

/-- A satellite with a `null` parent falls through to the planet branch
(the JavaScript `&&` guard fails on the falsy parent). -/
lemma updateBody_sat_noparent (arr : List Body) (ts dt : ℝ) (b : Body)
    (hstar : b.isStar = false) (hsat : b.isSatellite = true)
    (hpar : b.parent = none) :
    updateBody arr ts dt b =
      { b with
        rotationY := b.rotationY + rotationRate b * dt * ts
        currentAngle := b.currentAngle + orbitalAngularVelocity b * dt * ts * 86400
        position :=
          ⟨b.orbitalRadius *
             Real.cos (b.currentAngle + orbitalAngularVelocity b * dt * ts * 86400),
           b.position.y,
           b.orbitalRadius *
             Real.sin (b.currentAngle + orbitalAngularVelocity b * dt * ts * 86400)⟩ } := by
  simp [updateBody, satParent, hstar, hsat, hpar, orbitalAngularVelocity]

/-- A satellite whose parent id does not resolve keeps its angle and
position; only the rotation advances. -/
lemma updateBody_sat_orphan (arr : List Body) (ts dt : ℝ) (b : Body)
    (pid : String)
    (hstar : b.isStar = false) (hsat : b.isSatellite = true)
    (hpar : b.parent = some pid)
    (hmiss : getPlanetById arr pid = none) :
    updateBody arr ts dt b =
      { b with rotationY := b.rotationY + rotationRate b * dt * ts } := by
  simp [updateBody, satParent, hstar, hsat, hpar, hmiss]

/-- A single unpaused tick of a one-body system. -/
lemma updatePositions_single (dt ts : ℝ) (b : Body) :
    updatePositions dt ⟨[b], ts, false⟩ = ⟨[updateBody [b] ts dt b], ts, false⟩ := by
  show (if false = true then _ else _) = _
  rw [if_neg (by simp)]
  show PlanetSystem.mk (tickList ts dt [] [b]) ts false = _
  rw [tickList, tickList]
  simp

/-- The day-compression identity of the planet branch: the per-tick angle
increment `(2π / (T·86400)) · dt · ts · 86400` equals `(2π / T) · dt · ts`
(this also holds for `T = 0`, where both sides vanish under Lean's
`x / 0 = 0` convention). -/
lemma angle_increment_eq (T dt ts : ℝ) :
    2 * Real.pi / (T * 86400) * dt * ts * 86400 = 2 * Real.pi / T * dt * ts := by
  have h86 : (86400 : ℝ) ≠ 0 := by norm_num
  rw [← div_div]
  calc 2 * Real.pi / T / 86400 * dt * ts * 86400
      = 2 * Real.pi / T / 86400 * 86400 * dt * ts := by ring
    _ = 2 * Real.pi / T * dt * ts := by rw [div_mul_cancel₀ _ h86]

/-- Evolution of a one-planet system at `timeSpeed = 1` over any list of
frame deltas: the system shape, the body's kind flags and its orbital
period are preserved, and the accumulated angle is the seed plus
`2π · (Σ deltas) / T`. -/
lemma applyDeltas_single_planet (b : Body)
    (hstar : b.isStar = false) (hsat : b.isSatellite = false) :
    ∀ ds : List ℝ, ∃ b',
      applyDeltas ds ⟨[b], 1, false⟩ = ⟨[b'], 1, false⟩ ∧
      b'.isStar = false ∧ b'.isSatellite = false ∧
      b'.orbitalPeriod = b.orbitalPeriod ∧
      b'.currentAngle = b.currentAngle + 2 * Real.pi * ds.sum / b.orbitalPeriod := by
  intro ds
  induction ds generalizing b with
  | nil =>
      exact ⟨b, rfl, hstar, hsat, rfl, by simp⟩
  | cons d ds ih =>
      have hstep : applyDeltas (d :: ds) ⟨[b], 1, false⟩ =
          applyDeltas ds (updatePositions d ⟨[b], 1, false⟩) := rfl
      rw [hstep, updatePositions_single, updateBody_planet _ _ _ _ hstar hsat]
      set b1 : Body :=
        { b with
          rotationY := b.rotationY + rotationRate b * d * 1
          currentAngle := b.currentAngle + orbitalAngularVelocity b * d * 1 * 86400
          position :=
            ⟨b.orbitalRadius *
               Real.cos (b.currentAngle + orbitalAngularVelocity b * d * 1 * 86400),
             b.position.y,
             b.orbitalRadius *
               Real.sin (b.currentAngle + orbitalAngularVelocity b * d * 1 * 86400)⟩ } with hb1
      obtain ⟨b', heq, h1, h2, h3, hang⟩ := ih b1 hstar hsat
      refine ⟨b', heq, h1, h2, by rw [h3, hb1], ?_⟩
      rw [hang, hb1]
      show b.currentAngle + orbitalAngularVelocity b * d * 1 * 86400 +
          2 * Real.pi * ds.sum / b.orbitalPeriod =
        b.currentAngle + 2 * Real.pi * (d :: ds).sum / b.orbitalPeriod
      rw [orbitalAngularVelocity, angle_increment_eq, List.sum_cons]
      ring

/-- Claim C2 (confirmed): for a planet with `orbitalPeriodDays = 365.25`,
`timeSpeed = 1` and the system unpaused, after any sequence of
`updatePositions` calls whose `deltaSeconds` sum to exactly `365.25` the
planet's `currentAngle` has advanced by exactly `2π` (our real-number model
is exact, hence within any tolerance); each call advances the angle by
`(2π / (orbitalPeriodDays·86400)) · deltaSeconds · timeSpeed · 86400`. -/
theorem planet_rate_law (b : Body) (ds : List ℝ)
    (hstar : b.isStar = false) (hsat : b.isSatellite = false)
    (hT : b.orbitalPeriod = 365.25) (hsum : ds.sum = 365.25) :
    ∃ b', applyDeltas ds ⟨[b], 1, false⟩ = ⟨[b'], 1, false⟩ ∧
      b'.currentAngle = b.currentAngle + 2 * Real.pi := by
  obtain ⟨b', heq, _, _, _, hang⟩ := applyDeltas_single_planet b hstar hsat ds
  refine ⟨b', heq, ?_⟩
  rw [hang, hT, hsum, mul_div_assoc,
    div_self (by norm_num : (365.25 : ℝ) ≠ 0), mul_one]

/-- Witness for C2: a single tick of `deltaSeconds = 365.25` at
`timeSpeed = 1` advances the concrete planet's angle by exactly `2π`. -/
theorem planet_rate_law_witness :
    earthC2.orbitalPeriod = 365.25 ∧ List.sum [(365.25 : ℝ)] = 365.25 ∧
    ∃ b', applyDeltas [365.25] ⟨[earthC2], 1, false⟩ = ⟨[b'], 1, false⟩ ∧
      b'.currentAngle = earthC2.currentAngle + 2 * Real.pi :=
  ⟨rfl, by simp,
   planet_rate_law earthC2 [365.25] rfl rfl rfl (by simp)⟩

/-! ## C10 — timeSpeed = 0 -/

/-- At `timeSpeed = 0` every branch of `updateBody` leaves `currentAngle`
and `rotation.y` unchanged (the increments are multiplied by 0), though the
position may still be rewritten. -/
lemma updateBody_zero_ts (arr : List Body) (dt : ℝ) (b : Body) :
    (updateBody arr 0 dt b).currentAngle = b.currentAngle ∧
    (updateBody arr 0 dt b).rotationY = b.rotationY := by
  cases hstar : b.isStar with
  | true =>
      rw [updateBody_star arr 0 dt b hstar]
      constructor <;> simp
  | false =>
      cases hsat : b.isSatellite with
      | false =>
          rw [updateBody_planet arr 0 dt b hstar hsat]
          constructor <;> simp
      | true =>
          cases hpar : b.parent with
          | none =>
              rw [updateBody_sat_noparent arr 0 dt b hstar hsat hpar]
              constructor <;> simp
          | some pid =>
              cases hpp : getPlanetById arr pid with
              | none =>
                  rw [updateBody_sat_orphan arr 0 dt b pid hstar hsat hpar hpp]
                  constructor <;> simp
              | some pp =>
                  rw [updateBody_satellite arr 0 dt b pp pid hstar hsat hpar hpp]
                  constructor <;> simp

/-- At `timeSpeed = 0` the update pass appends to `done` a list of bodies
that agree entry-by-entry with the pending bodies on `currentAngle` and
`rotationY`. -/
lemma tickList_zero_ts (dt : ℝ) :
    ∀ (pending done : List Body), ∃ tail,
      tickList 0 dt done pending = done ++ tail ∧
      List.Forall₂
        (fun a b => b.currentAngle = a.currentAngle ∧ b.rotationY = a.rotationY)
        pending tail := by
  intro pending
  induction pending with
  | nil =>
      intro done
      exact ⟨[], by rw [tickList]; simp, List.Forall₂.nil⟩
  | cons b rest ih =>
      intro done
      obtain ⟨tail, heq, hf⟩ := ih (done ++ [updateBody (done ++ (b :: rest)) 0 dt b])
      refine ⟨updateBody (done ++ (b :: rest)) 0 dt b :: tail, ?_, ?_⟩
      · rw [tickList, heq]
        simp
      · exact List.Forall₂.cons
          ⟨(updateBody_zero_ts _ dt b).1, (updateBody_zero_ts _ dt b).2⟩ hf

/-- Claim C10 (amended, proved): with the system unpaused and
`timeSpeed = 0`, a tick with any `deltaSeconds` leaves every body's
`currentAngle` and rotation angle unchanged (each increment is scaled by
the zero speed). -/
theorem zero_speed_preserves_angles (dt : ℝ) (sys : PlanetSystem)
    (hpause : sys.isPaused = false) (hts : sys.timeSpeed = 0) :
    List.Forall₂
      (fun a b => b.currentAngle = a.currentAngle ∧ b.rotationY = a.rotationY)
      sys.planets (updatePositions dt sys).planets := by
  rw [updatePositions, if_neg (by rw [hpause]; simp), hts]
  obtain ⟨tail, heq, hf⟩ := tickList_zero_ts dt sys.planets []
  show List.Forall₂ _ sys.planets (tickList 0 dt [] sys.planets)
  rw [heq, List.nil_append]
  exact hf

/-- Counterexample for C10: at `timeSpeed = 0` (and not paused) a tick does
*not* leave every body's position unchanged: positions are unconditionally
recomputed from the (unchanged) angles, so the fresh satellite at the
origin is snapped to `parent.position + r·(cos 0, 0, sin 0) = (15, 0, 0)`,
a different position than before the call. -/
theorem zero_speed_moves_fresh_satellite :
    ∃ e' m', (updatePositions 1 sysFreshC10).planets = [e', m'] ∧
      m'.position ≠ moonC10.position := by
  have hE := updateBody_planet [earthC10, moonC10] 0 1 earthC10 rfl rfl
  have hid : (updateBody [earthC10, moonC10] 0 1 earthC10).id = "e" := by
    rw [hE]
    rfl
  have hfind :
      getPlanetById [updateBody [earthC10, moonC10] 0 1 earthC10, moonC10] "e" =
        some (updateBody [earthC10, moonC10] 0 1 earthC10) := by
    simp [getPlanetById, List.find?, hid]
  have hM := updateBody_satellite
    [updateBody [earthC10, moonC10] 0 1 earthC10, moonC10] 0 1 moonC10
    (updateBody [earthC10, moonC10] 0 1 earthC10) "e" rfl rfl rfl hfind
  refine ⟨updateBody [earthC10, moonC10] 0 1 earthC10,
          updateBody [updateBody [earthC10, moonC10] 0 1 earthC10, moonC10] 0 1 moonC10,
          ?_, ?_⟩
  · simp only [updatePositions]
    rw [if_neg (by simp [sysFreshC10])]
    show tickList sysFreshC10.timeSpeed 1 [] sysFreshC10.planets = _
    simp only [sysFreshC10]
    simp [tickList]
  · rw [hM]
    intro h
    have hx := congrArg Vec3.x h
    rw [hE] at hx
    simp [earthC10, moonC10] at hx
    norm_num at hx

/-- Witness for C10's amended theorem: the slider minimum maps to speed 0,
and a tick of the concrete unpaused system at that speed preserves every
angle and rotation. -/
theorem zero_speed_preserves_angles_witness :
    sliderToSpeed 0 = 0 ∧
    sysFreshC10.isPaused = false ∧ sysFreshC10.timeSpeed = 0 ∧
    List.Forall₂
      (fun a b => b.currentAngle = a.currentAngle ∧ b.rotationY = a.rotationY)
      sysFreshC10.planets (updatePositions 1 sysFreshC10).planets :=
  ⟨by norm_num [sliderToSpeed], rfl, rfl,
   zero_speed_preserves_angles 1 sysFreshC10 rfl rfl⟩

/-! ## C1 — satellite/parent update ordering and the radius invariant -/

/-- Splitting the update pass: processing `l₁ ++ l₂` from `done` first
processes the block `l₁` (with `l₂` pending) and continues with `l₂`. -/
lemma tickList_eq_runUpTo (ts dt : ℝ) :
    ∀ (l₁ done l₂ : List Body),
      tickList ts dt done (l₁ ++ l₂) =
        tickList ts dt (runUpTo ts dt done l₁ l₂) l₂ := by
  intro l₁
  induction l₁ with
  | nil => intro done l₂; rw [runUpTo, List.nil_append]
  | cons b l₁ ih =>
      intro done l₂
      rw [List.cons_append, tickList, runUpTo]
      exact ih _ l₂

/-- The update loop only ever appends to the processed segment. -/
lemma tickList_extends (ts dt : ℝ) :
    ∀ (pending done : List Body), ∃ tail,
      tickList ts dt done pending = done ++ tail := by
  intro pending
  induction pending with
  | nil => intro done; exact ⟨[], by rw [tickList]; simp⟩
  | cons b rest ih =>
      intro done
      obtain ⟨tail, heq⟩ := ih (done ++ [updateBody (done ++ (b :: rest)) ts dt b])
      exact ⟨updateBody (done ++ (b :: rest)) ts dt b :: tail,
        by rw [tickList, heq]; simp⟩

/-- `Array.prototype.find` scans left to right: a match found in a prefix
of the array is the match found in the whole array. -/
lemma getPlanetById_append_of_some (l₁ l₂ : List Body) (pid : String)
    (p : Body) (h : getPlanetById l₁ pid = some p) :
    getPlanetById (l₁ ++ l₂) pid = some p := by
  induction l₁ with
  | nil => simp [getPlanetById, List.find?] at h
  | cons b l₁ ih =>
      rw [getPlanetById, List.cons_append, List.find?]
      rw [getPlanetById, List.find?] at h
      cases hb : (b.id == pid) with
      | true => rw [hb] at h; exact h
      | false => rw [hb] at h; exact ih h

/-- The distance from `c + r·(cos θ, 0, sin θ)` to `c` is exactly `r`. -/
lemma dist3_orbit (c : Vec3) (r θ : ℝ) (hr : 0 ≤ r) :
    dist3 ⟨c.x + r * Real.cos θ, c.y, c.z + r * Real.sin θ⟩ c = r := by
  rw [dist3]
  have hsum : (c.x + r * Real.cos θ - c.x) ^ 2 + (c.y - c.y) ^ 2 +
      (c.z + r * Real.sin θ - c.z) ^ 2 = r ^ 2 := by
    have hcs := Real.sin_sq_add_cos_sq θ
    calc (c.x + r * Real.cos θ - c.x) ^ 2 + (c.y - c.y) ^ 2 +
        (c.z + r * Real.sin θ - c.z) ^ 2
        = r ^ 2 * (Real.sin θ ^ 2 + Real.cos θ ^ 2) := by ring
      _ = r ^ 2 := by rw [hcs, mul_one]
  show Real.sqrt ((c.x + r * Real.cos θ - c.x) ^ 2 + (c.y - c.y) ^ 2 +
      (c.z + r * Real.sin θ - c.z) ^ 2) = r
  rw [hsum]
  exact Real.sqrt_sq hr

/-- Claim C1 (amended, proved): `updatePositions` processes bodies in array
order with no reordering, so the invariant holds *provided the parent
precedes the satellite*: if the planets array is `pre ++ s :: post` with
satellite `s`, and the lookup of `s.parent` over the already-processed
prefix (`runUpTo … pre …`) yields `p'`, then the satellite's updated entry
sits right after that prefix in the final array, reads exactly `p'`'s
already-updated position, the parent's entry is not touched again later in
the pass, and the distance from the satellite's final position to `p'`'s
final position is exactly the satellite's orbital radius. -/
theorem satellite_after_parent_radius_invariant
    (ts dt : ℝ) (pre post : List Body) (s p' : Body) (pid : String)
    (hstar : s.isStar = false) (hsat : s.isSatellite = true)
    (hpar : s.parent = some pid) (hr : 0 ≤ s.orbitalRadius)
    (hfind : getPlanetById (runUpTo ts dt [] pre (s :: post)) pid = some p') :
    ∃ s' tail,
      tickList ts dt [] (pre ++ s :: post) =
        runUpTo ts dt [] pre (s :: post) ++ s' :: tail ∧
      getPlanetById (tickList ts dt [] (pre ++ s :: post)) pid = some p' ∧
      s'.currentAngle =
        s.currentAngle + orbitalAngularVelocity s * dt * ts * 86400 ∧
      dist3 s'.position p'.position = s.orbitalRadius := by
  have hsplit : tickList ts dt [] (pre ++ s :: post) =
      tickList ts dt (runUpTo ts dt [] pre (s :: post)) (s :: post) :=
    tickList_eq_runUpTo ts dt pre [] (s :: post)
  have hstep : tickList ts dt (runUpTo ts dt [] pre (s :: post)) (s :: post) =
      tickList ts dt
        (runUpTo ts dt [] pre (s :: post) ++
          [updateBody (runUpTo ts dt [] pre (s :: post) ++ (s :: post)) ts dt s])
        post := by
    rw [tickList]
  have hfound :
      getPlanetById (runUpTo ts dt [] pre (s :: post) ++ (s :: post)) pid = some p' :=
    getPlanetById_append_of_some _ _ pid p' hfind
  have hupd := updateBody_satellite
    (runUpTo ts dt [] pre (s :: post) ++ (s :: post)) ts dt s p' pid
    hstar hsat hpar hfound
  obtain ⟨tail, htail⟩ := tickList_extends ts dt post
    (runUpTo ts dt [] pre (s :: post) ++
      [updateBody (runUpTo ts dt [] pre (s :: post) ++ (s :: post)) ts dt s])
  refine ⟨updateBody (runUpTo ts dt [] pre (s :: post) ++ (s :: post)) ts dt s,
    tail, ?_, ?_, ?_, ?_⟩
  · rw [hsplit, hstep, htail]
    simp
  · rw [hsplit, hstep, htail, List.append_assoc]
    exact getPlanetById_append_of_some _ _ pid p' hfind
  · rw [hupd]
  · rw [hupd]
    exact dist3_orbit p'.position s.orbitalRadius
      (s.currentAngle + orbitalAngularVelocity s * dt * ts * 86400) hr

/-- Witness for C1's amended theorem: with the parent listed first, one
tick leaves the concrete satellite at distance exactly its orbital radius
from the parent's final position. -/
theorem satellite_after_parent_radius_invariant_witness :
    (0 : ℝ) ≤ mW.orbitalRadius ∧
    ∃ s' tail,
      tickList 1 1 [] ([eW] ++ mW :: []) =
        runUpTo 1 1 [] [eW] (mW :: []) ++ s' :: tail ∧
      getPlanetById (tickList 1 1 [] ([eW] ++ mW :: [])) "e" = some eW1 ∧
      s'.currentAngle = mW.currentAngle + orbitalAngularVelocity mW * 1 * 1 * 86400 ∧
      dist3 s'.position eW1.position = mW.orbitalRadius := by
  have hidW : (updateBody [eW, mW] 1 1 eW).id = "e" := by
    rw [updateBody_planet [eW, mW] 1 1 eW rfl rfl]
    rfl
  have hfindW : getPlanetById (runUpTo 1 1 [] [eW] (mW :: [])) "e" = some eW1 := by
    rw [runUpTo, runUpTo]
    simp only [List.nil_append, List.append_nil]
    simp [getPlanetById, List.find?, hidW, eW1]
  exact ⟨by norm_num [mW],
    satellite_after_parent_radius_invariant 1 1 [eW] [] mW eW1 "e"
      rfl rfl rfl (by norm_num [mW]) hfindW⟩

/-- Counterexample for C1: `updatePositions` performs *no* reordering, so
with the satellite listed before its parent the satellite reads the
parent's stale pre-tick position `(10,0,0)`; one tick of `deltaSeconds = 1`
at `timeSpeed = 1` advances both angles by π, leaving the satellite at
`(5,0,0)` while the parent moves to `(−10,0,0)`: their distance after the
tick is 15, not the satellite's orbital radius 5 — the claimed invariant
fails. -/
theorem satellite_before_parent_breaks_radius_invariant :
    ∃ m' e', (updatePositions 1 sysSwapA).planets = [m', e'] ∧
      dist3 m'.position e'.position ≠ moonA.orbitalRadius := by
  have hfindA : getPlanetById [moonA, earthA] "e" = some earthA := by
    simp [getPlanetById, List.find?, moonA, earthA]
  have hM := updateBody_satellite [moonA, earthA] 1 1 moonA earthA "e"
    rfl rfl rfl hfindA
  have hE := updateBody_planet [updateBody [moonA, earthA] 1 1 moonA, earthA]
    1 1 earthA rfl rfl
  refine ⟨updateBody [moonA, earthA] 1 1 moonA,
          updateBody [updateBody [moonA, earthA] 1 1 moonA, earthA] 1 1 earthA,
          ?_, ?_⟩
  · simp only [updatePositions]
    rw [if_neg (by simp [sysSwapA])]
    show tickList sysSwapA.timeSpeed 1 [] sysSwapA.planets = _
    simp only [sysSwapA]
    simp [tickList]
  · have hθm : moonA.currentAngle +
        orbitalAngularVelocity moonA * 1 * 1 * 86400 = Real.pi := by
      rw [orbitalAngularVelocity]
      have h2 : moonA.orbitalPeriod = 2 := rfl
      have h0 : moonA.currentAngle = 0 := rfl
      rw [h2, h0, angle_increment_eq]
      ring
    have hθe : earthA.currentAngle +
        orbitalAngularVelocity earthA * 1 * 1 * 86400 = Real.pi := by
      rw [orbitalAngularVelocity]
      have h2 : earthA.orbitalPeriod = 2 := rfl
      have h0 : earthA.currentAngle = 0 := rfl
      rw [h2, h0, angle_increment_eq]
      ring
    rw [hE, hM, hθm, hθe]
    norm_num [dist3, earthA, moonA]
    intro h225
    have h15 : Real.sqrt 225 = 15 := by
      rw [show (225 : ℝ) = 15 ^ 2 by norm_num]
      exact Real.sqrt_sq (by norm_num)
    rw [h15] at h225
    norm_num at h225

end Astrolearn
